import Mathlib

/-!
Verification of the Terrain submission-client behavior embedded from the
cyverse/terrain-notebook repository.  The definitions below are shallow
embeddings of the Python cells of the two notebooks (the unnamed notebook is
called part_000 here); theorems settle the specification claims against them.
-/

set_option autoImplicit false

namespace Terrain

/-! ## Data model -/

/-- One configurable input of an app: the `parameters` entries of an app
detail response, reduced to the two fields the notebooks read. -/
structure Param where
  id : String
  label : String
deriving DecidableEq, Repr

/-- One entry of the `groups` list of an app detail response. -/
structure ParamGroup where
  parameters : List Param
deriving DecidableEq, Repr

/-- The app detail response body, reduced to the `groups` field that the
notebooks read. -/
structure AppDetail where
  groups : List ParamGroup
deriving DecidableEq, Repr

/-- The pair of identifiers the notebooks extract from an app listing and
plug into every submission body. -/
structure AppRef where
  system_id : String
  app_id : String
deriving DecidableEq, Repr

/-- One element of the `apps` array of an app search response, reduced to
the fields the notebooks read. -/
structure AppListing where
  name : String
  system_id : String
  id : String
deriving DecidableEq, Repr

/-- One entry of the `requirements` list of a submission body.  The
notebooks set various subsets of these fields; absent fields are `none`. -/
structure Requirement where
  min_cpu_cores : Option Nat := none
  max_cpu_cores : Option Nat := none
  min_memory_limit : Option Nat := none
  min_disk_space : Option Nat := none
  step_number : Nat
deriving DecidableEq, Repr

/-- A value of the `config` mapping: the notebooks use plain strings and
lists of strings (for MultiFileSelector parameters). -/
inductive CfgVal where
  | str (s : String)
  | strList (xs : List String)
deriving DecidableEq, Repr

/-- A value of the top-level submission request dict. -/
inductive BodyVal where
  | str (s : String)
  | bool (b : Bool)
  | cfg (entries : List (String × CfgVal))
  | reqs (rs : List Requirement)
deriving DecidableEq, Repr

/-- A Python dict is insertion ordered, so a request body is an ordered
association list. -/
abbrev RequestBody := List (String × BodyVal)

/-- An analysis record as returned by the analyses endpoints, reduced to the
fields the claims mention. -/
structure Analysis where
  id : String
  parent_id : Option String := none
deriving DecidableEq, Repr

/-- The HTTPError that requests raises for a 4xx or 5xx response. -/
structure HttpError where
  status : Nat
deriving DecidableEq, Repr

/-- Failures of the pure Python lookup code in the notebooks.
`unknownParameter` is the ValueError raised by destructuring an empty list
(not enough values to unpack), `ambiguousParameter` the ValueError raised by
destructuring a list of two or more (too many values to unpack), and
`indexError` the IndexError raised by indexing an empty list at 0. -/
inductive PyFailure where
  | unknownParameter
  | ambiguousParameter
  | indexError
deriving DecidableEq, Repr

/-! ## Path-list file construction (part_000 lines 351-357) -/

/-- Python str.join with a separator. -/
def pyJoin (sep : String) : List String → String
  | [] => ""
  | [x] => x
  | x :: y :: rest => x ++ sep ++ pyJoin sep (y :: rest)

/-- Header line of a high throughput path list file, as hard-coded in
part_000 line 353. -/
def pathListHeader : String := "# application/vnd.de.path-list+csv; version=1"

/-- The `content` field of the fileio saveas request built in part_000
lines 352-355: the header, a newline, and the first eight paths joined by
newlines. -/
def pathListContent (paths : List String) : String :=
  pathListHeader ++ "\n" ++ pyJoin "\n" (paths.take 8)

/-! ## App selection (part_000 line 153, terrain-intro line 128) -/

/-- Indexing the `apps` array of a search response at 0, as in
`r.json()["apps"][0]`: an IndexError when the array is empty. -/
def selectFirstApp (apps : List AppListing) : Except PyFailure AppListing :=
  match apps with
  | [] => Except.error PyFailure.indexError
  | a :: _ => Except.ok a

/-- The exact-name filter followed by indexing at 0, as in terrain-intro
line 128. -/
def selectAppByExactName (nm : String) (apps : List AppListing) :
    Except PyFailure AppListing :=
  selectFirstApp (apps.filter (fun a => a.name = nm))

/-! ## Label resolution (part_000 lines 403-410) -/

/-- The list comprehension of part_000 lines 405-407: the ids of the
parameters whose label equals the given one. -/
def matchingIds (ps : List Param) (label : String) : List String :=
  (ps.filter (fun p => p.label = label)).map Param.id

/-- Python destructuring assignment of a list into a single variable, as in
part_000 lines 405-407: a ValueError unless the list has exactly one
element. -/
def unpackSingle (l : List String) : Except PyFailure String :=
  match l with
  | [x] => Except.ok x
  | [] => Except.error PyFailure.unknownParameter
  | _ :: _ :: _ => Except.error PyFailure.ambiguousParameter

/-- The expression `app["groups"][0]["parameters"]` of part_000 line 404:
an IndexError when the groups list is empty. -/
def firstGroupParameters (app : AppDetail) : Except PyFailure (List Param) :=
  match app.groups with
  | [] => Except.error PyFailure.indexError
  | g :: _ => Except.ok g.parameters

/-- Resolution of one human label to a parameter id, exactly as the code of
part_000 lines 404-407 does it: scan the parameters of the first group and
destructure the matches into a single id. -/
def resolveLabel (app : AppDetail) (label : String) : Except PyFailure String :=
  match firstGroupParameters app with
  | Except.error e => Except.error e
  | Except.ok ps => unpackSingle (matchingIds ps label)

/-- Resolution of a whole ordered mapping of labels to values, applying
`resolveLabel` to each entry in turn; the first failure propagates. -/
def resolveConfig (app : AppDetail) :
    List (String × CfgVal) → Except PyFailure (List (String × CfgVal))
  | [] => Except.ok []
  | (label, v) :: rest =>
    match resolveLabel app label with
    | Except.error e => Except.error e
    | Except.ok pid =>
      match resolveConfig app rest with
      | Except.error e => Except.error e
      | Except.ok tail => Except.ok ((pid, v) :: tail)

/-- Modelled from the spec: `buildSubmission` of spec section 4.1 does not
exist as a single function in the notebooks; it is assembled here from the
pieces that do exist.  Label resolution is the code of part_000 lines
403-410 (via `resolveConfig`), and the body is the request_body dict of
part_000 lines 250-267 in its exact key order, with the `requirements`
entry taken from the resourceReqs argument as the spec signature
prescribes. -/
def buildSubmission (app : AppDetail) (appRef : AppRef)
    (paramValues : List (String × CfgVal)) (resourceReqs : List Requirement)
    (outputDir nm : String) (notify debug : Bool) :
    Except PyFailure RequestBody :=
  match resolveConfig app paramValues with
  | Except.error e => Except.error e
  | Except.ok cfg =>
    Except.ok
      [("config", BodyVal.cfg cfg),
       ("name", BodyVal.str nm),
       ("app_id", BodyVal.str appRef.app_id),
       ("system_id", BodyVal.str appRef.system_id),
       ("debug", BodyVal.bool debug),
       ("output_dir", BodyVal.str outputDir),
       ("notify", BodyVal.bool notify),
       ("requirements", BodyVal.reqs resourceReqs)]

/-- All parameters of an app detail, across all groups. -/
def allParameters (app : AppDetail) : List Param :=
  (app.groups.map ParamGroup.parameters).flatten

/-- All parameter ids of an app detail, across all groups. -/
def paramIds (app : AppDetail) : List String :=
  (allParameters app).map Param.id

/-- How many parameters of the whole app detail carry the given label. -/
def labelMatchCount (app : AppDetail) (label : String) : Nat :=
  ((allParameters app).filter (fun p => p.label = label)).length

/-- The keys of the `config` entry of a request body. -/
def configKeys (body : RequestBody) : List String :=
  match body.lookup "config" with
  | some (BodyVal.cfg entries) => entries.map Prod.fst
  | _ => []

/-! ## JSON serialization (requests json= keyword and json.dumps) -/

/-- Escaping of one character inside a JSON string, as json.dumps performs
it for the characters that occur in the notebooks' data. -/
def jsonEscapeChar (c : Char) : String :=
  if c = '\"' then "\\\""
  else if c = '\\' then "\\\\"
  else if c = '\n' then "\\n"
  else if c = '\t' then "\\t"
  else if c = '\r' then "\\r"
  else String.singleton c

/-- Escaping of a JSON string body. -/
def jsonEscape (s : String) : String :=
  String.join (s.toList.map jsonEscapeChar)

/-- Serialization of a JSON string with its quotes. -/
def dumpsStr (s : String) : String :=
  "\"" ++ jsonEscape s ++ "\""

/-- Serialization of a config value. -/
def dumpsCfgVal : CfgVal → String
  | CfgVal.str s => dumpsStr s
  | CfgVal.strList xs => "[" ++ String.intercalate ", " (xs.map dumpsStr) ++ "]"

/-- Serialization of one optional numeric field of a requirements entry. -/
def dumpsReqField (nm : String) (v : Option Nat) : List String :=
  match v with
  | none => []
  | some n => [dumpsStr nm ++ ": " ++ toString n]

/-- Serialization of one requirements entry, fields in the order of the
terrain-intro request body. -/
def dumpsReq (r : Requirement) : String :=
  "\x7b" ++
    String.intercalate ", "
      (dumpsReqField "min_cpu_cores" r.min_cpu_cores ++
       dumpsReqField "max_cpu_cores" r.max_cpu_cores ++
       dumpsReqField "min_memory_limit" r.min_memory_limit ++
       dumpsReqField "min_disk_space" r.min_disk_space ++
       [dumpsStr "step_number" ++ ": " ++ toString r.step_number]) ++
  "\x7d"

/-- Serialization of a top-level body value. -/
def dumpsBodyVal : BodyVal → String
  | BodyVal.str s => dumpsStr s
  | BodyVal.bool b => if b then "true" else "false"
  | BodyVal.cfg entries =>
    "\x7b" ++
      String.intercalate ", "
        (entries.map (fun e => dumpsStr e.1 ++ ": " ++ dumpsCfgVal e.2)) ++
    "\x7d"
  | BodyVal.reqs rs =>
    "[" ++ String.intercalate ", " (rs.map dumpsReq) ++ "]"

/-- Serialization of a whole request body to the JSON bytes that the
requests library sends, key order preserved. -/
def serializeBody (body : RequestBody) : String :=
  "\x7b" ++
    String.intercalate ", "
      (body.map (fun e => dumpsStr e.1 ++ ": " ++ dumpsBodyVal e.2)) ++
  "\x7d"

/-! ## The parameter sweep (part_000 lines 527-584) -/

/-- Hard-coded parameter id of part_000 line 527. -/
def read_1_id : String :=
  "56bc4ac4-ad24-11e7-8a4a-008cfa5ae621_56c81f34-ad24-11e7-8a4a-008cfa5ae621"

/-- Hard-coded parameter id of part_000 line 528. -/
def read_2_id : String :=
  "56bc4ac4-ad24-11e7-8a4a-008cfa5ae621_56c93ebe-ad24-11e7-8a4a-008cfa5ae621"

/-- Hard-coded parameter id of part_000 line 529. -/
def error_rate_id : String :=
  "56bc4ac4-ad24-11e7-8a4a-008cfa5ae621_56d60db0-ad24-11e7-8a4a-008cfa5ae621"

/-- The request_body dict of part_000 lines 548-560, key for key.  Note
that this body has no requirements entry. -/
def sweepRequestBody (username aid sid read1 read2 rate : String) :
    RequestBody :=
  [("config",
      BodyVal.cfg
        [(read_1_id, CfgVal.strList [read1]),
         (read_2_id, CfgVal.strList [read2]),
         (error_rate_id, CfgVal.str rate)]),
   ("name", BodyVal.str ("terrain-automation-sweep-" ++ rate)),
   ("app_id", BodyVal.str aid),
   ("system_id", BodyVal.str sid),
   ("debug", BodyVal.bool false),
   ("output_dir", BodyVal.str ("/iplant/home/" ++ username ++ "/analyses")),
   ("notify", BodyVal.bool true)]

/-- The function submit_parameter_sweep_job of part_000 lines 547-563.  The
POST to the analyses endpoint and its raise_for_status check are
represented by the post oracle: a 2xx response is ok, a raised HTTPError is
error. -/
def submit_parameter_sweep_job (post : RequestBody → Except HttpError Analysis)
    (username aid sid read1 read2 rate : String) : Except HttpError Analysis :=
  post (sweepRequestBody username aid sid read1 read2 rate)

/-- Whether a submission attempt returned without raising. -/
def isOkResult (r : Except HttpError Analysis) : Bool :=
  match r with
  | Except.ok _ => true
  | Except.error _ => false

/-- The for loop of part_000 lines 583-584.  Each iteration calls submit
once; an exception raised inside the body propagates and terminates the
loop, so the trace records one entry per call actually issued, and the
entry of a failed call is last. -/
def runSweep (submit : String → Except HttpError Analysis) :
    List String → List (String × Except HttpError Analysis)
  | [] => []
  | rate :: rest =>
    match submit rate with
    | Except.ok a => (rate, Except.ok a) :: runSweep submit rest
    | Except.error e => [(rate, Except.error e)]

/-- The list of error rates swept in part_000 line 583. -/
def sweepRates : List String := ["0.01", "0.02", "0.03", "0.04"]

/-! ## Response status checking (all request cells of both notebooks) -/

/-- The method requests.Response.raise_for_status: it raises an HTTPError
exactly for a 4xx or 5xx status. -/
def raiseForStatus (status : Nat) : Except HttpError Unit :=
  if 400 ≤ status ∧ status < 600 then Except.error ⟨status⟩ else Except.ok ()

/-- The HTTP request cells of the two notebooks, one constructor per
requests.get or requests.post call. -/
inductive CallSite where
  | introWelcome
  | introToken
  | introAppSearch
  | introAppDetail
  | introVersionedDetail
  | introSubmit
  | introListById
  | introStop
  | introWordCountSearch
  | introWordCountDetail
  | introWordCountSubmit
  | introListLimit
  | autoToken
  | autoViceSearch
  | autoViceDetail
  | autoViceSubmit
  | autoViceList
  | autoPagedDir
  | autoSaveas
  | autoBatchSearch
  | autoBatchDetail
  | autoBatchSubmit
  | autoBatchList
  | autoSweepSearch
  | autoSweepDetail
  | autoSweepSubmit
deriving DecidableEq, Repr

/-- Whether the cell actually calls r.raise_for_status() on the response.
Every cell does, except the parameter sweep app search of part_000 line
503, which writes the expression r.raise_for_status without the call
parentheses, so the check never runs there. -/
def checksStatus : CallSite → Bool
  | CallSite.autoSweepSearch => false
  | _ => true

/-- The outcome of the status check of a call site on a response with the
given status: the raise_for_status result where the check is called, and
silent success where it is not. -/
def siteOutcome (site : CallSite) (status : Nat) : Except HttpError Unit :=
  if checksStatus site then raiseForStatus status else Except.ok ()

/-! ## The analyses endpoints -/

/-- A GET request as the notebooks issue it: a url path and ordered query
parameters. -/
structure HttpRequest where
  path : String
  queryParams : List (String × String)
deriving DecidableEq, Repr

/-- The body of an analysis listing response, reduced to the `analyses`
field. -/
structure ListResponse where
  analyses : List Analysis

/-- The serialization json.dumps produces for one filter object, with its
default separators. -/
def dumpsFilterObj (field value : String) : String :=
  "\x7b\"field\": " ++ dumpsStr field ++ ", \"value\": " ++ dumpsStr value ++ "\x7d"

/-- The serialization json.dumps produces for an array of filter objects. -/
def dumpsFilterArray (filters : List (String × String)) : String :=
  "[" ++ String.intercalate ", " (filters.map (fun fv => dumpsFilterObj fv.1 fv.2)) ++ "]"

/-- The filter query parameter value built in part_000 lines 301 and 476
and terrain-intro line 334: json.dumps of the one-element array holding the
filter object. -/
def filterParamValue (field value : String) : String :=
  dumpsFilterArray [(field, value)]

/-- The analysis listing request: the analyses url with the filter
parameter (when a filter is given) and the limit parameter (when a limit is
given), exactly the query parameters the notebook cells pass. -/
def listAnalysesRequest (filt : Option (String × String)) (lim : Option Nat) :
    HttpRequest :=
  { path := "https://de.cyverse.org/terrain/analyses",
    queryParams :=
      (match filt with
       | none => []
       | some fv => [("filter", filterParamValue fv.1 fv.2)]) ++
      (match lim with
       | none => []
       | some n => [("limit", toString n)]) }

/-- The client side of listAnalyses: issue the listing request and return
the `analyses` array of the response body as is, with no local reordering
or truncation. -/
def listAnalyses (respond : HttpRequest → ListResponse)
    (filt : Option (String × String)) (lim : Option Nat) : List Analysis :=
  (respond (listAnalysesRequest filt lim)).analyses

/-- A POST of a submission body to the analyses endpoint, as in part_000
lines 283 and 455: the body is sent exactly as given, with no local
validation of any kind. -/
structure HttpPost where
  path : String
  body : RequestBody
deriving DecidableEq, Repr

/-- The submit call: the request the client sends for a given body. -/
def submitPost (body : RequestBody) : HttpPost :=
  { path := "https://de.cyverse.org/terrain/analyses", body := body }

/-! ## Server model for the round trip -/

/-- Modelled from the spec: the external analyses store behind the submit
and listing endpoints is not part of this repository; spec sections 4.1 and
6 fix its contract.  The store lists analyses most recent first. -/
structure ServerState where
  analyses : List Analysis

/-- Modelled from the spec: the exact field match of the listing filter,
for the two fields the notebooks filter on. -/
def matchesFilter (filt : Option (String × String)) (a : Analysis) : Bool :=
  match filt with
  | none => true
  | some fv =>
    if fv.1 = "id" then a.id = fv.2
    else if fv.1 = "parent_id" then a.parent_id = some fv.2
    else false

/-- Modelled from the spec: an accepted submission creates one analysis
with a fresh id and returns it; the store gains the new analysis at the
front (most recent first). -/
def serverSubmit (st : ServerState) (newId : String) : ServerState × Analysis :=
  let a : Analysis := { id := newId, parent_id := none }
  (⟨a :: st.analyses⟩, a)

/-- Modelled from the spec: the listing endpoint returns the stored
analyses that match the filter, in store order, truncated to the limit when
one is given. -/
def serverList (st : ServerState) (filt : Option (String × String))
    (lim : Option Nat) : List Analysis :=
  let filtered := st.analyses.filter (matchesFilter filt)
  match lim with
  | none => filtered
  | some n => filtered.take n

/-! ## Concrete instances used by witnesses and counterexamples -/

/-- The app detail of the literal scenario of spec section 8: one group
with the single parameter p1 labelled Input. -/
def oneParamApp : AppDetail := ⟨[⟨[⟨"p1", "Input"⟩]⟩]⟩

/-- An app detail with two groups whose second group holds the only
parameter labelled B.  The notebook lookup scans only the first group, so
resolving B fails even though exactly one parameter of the app carries that
label. -/
def twoGroupApp : AppDetail := ⟨[⟨[⟨"p1", "A"⟩]⟩, ⟨[⟨"p2", "B"⟩]⟩]⟩

/-- The request body of the literal scenario of spec section 8, at system
id de and app id app-x. -/
def exampleBody : RequestBody :=
  [("config", BodyVal.cfg [("p1", CfgVal.str "/a/b.txt")]),
   ("name", BodyVal.str "job1"),
   ("app_id", BodyVal.str "app-x"),
   ("system_id", BodyVal.str "de"),
   ("debug", BodyVal.bool false),
   ("output_dir", BodyVal.str "/out"),
   ("notify", BodyVal.bool true),
   ("requirements", BodyVal.reqs [])]

/-- A search hit whose name is not the exact search term. -/
def appA : AppListing := ⟨"Copy of JupyterLab Datascience", "de", "id-a"⟩

/-- A search hit whose name is the exact search term of terrain-intro. -/
def appB : AppListing := ⟨"JupyterLab Datascience", "de", "id-b"⟩

/-- A post oracle on which every submission is accepted. -/
def sweepAllOk (rate : String) : Except HttpError Analysis :=
  Except.ok ⟨"analysis-" ++ rate, none⟩

/-- A post oracle on which every submission is rejected with a 502. -/
def sweepAllFail (_rate : String) : Except HttpError Analysis :=
  Except.error ⟨502⟩

/-- A post oracle whose analyses endpoint answers every request with a
500, so that raise_for_status raises on every submission. -/
def failPost (_body : RequestBody) : Except HttpError Analysis :=
  Except.error ⟨500⟩

/-- First paired read of part_000 line 581. -/
def atReads1 : String :=
  "/iplant/home/shared/iplantcollaborative/example_data/trim-galore/ATreads.fq"

/-- Second paired read of part_000 line 582. -/
def atReads2 : String :=
  "/iplant/home/shared/iplantcollaborative/example_data/trim-galore/ATreads2.fq"

/-! ## Helper lemmas -/

/-- Folding string append from any start is the fold from the empty string
appended to the start. -/
theorem foldl_append_init (L : List String) : ∀ a : String,
    List.foldl (fun r s => r ++ s) a L
      = a ++ List.foldl (fun r s => r ++ s) "" L := by
  induction L with
  | nil => intro a; simp
  | cons x xs ih =>
    intro a
    simp only [List.foldl]
    rw [ih (a ++ x), ih ("" ++ x)]
    simp [String.append_assoc]

/-- Unfolding of the accumulator loop of String.intercalate. -/
theorem intercalate_go_eq (s : String) (l : List String) : ∀ acc : String,
    String.intercalate.go acc s l = acc ++ String.join (l.map (fun a => s ++ a)) := by
  induction l with
  | nil => intro acc; simp [String.intercalate.go, String.join]
  | cons a as ih =>
    intro acc
    simp only [String.intercalate.go, List.map]
    rw [ih]
    simp only [String.join, List.foldl]
    rw [foldl_append_init _ ("" ++ (s ++ a))]
    simp [String.append_assoc]

/-- The Python separator join and the Lean intercalate agree. -/
theorem pyJoin_eq_intercalate (sep : String) (l : List String) :
    pyJoin sep l = String.intercalate sep l := by
  cases l with
  | nil => rfl
  | cons x rest =>
    induction rest generalizing x with
    | nil => rfl
    | cons y t ih =>
      show x ++ sep ++ pyJoin sep (y :: t) = String.intercalate sep (x :: y :: t)
      rw [ih y]
      simp only [String.intercalate]
      rw [intercalate_go_eq, intercalate_go_eq]
      simp only [String.join, List.map, List.foldl]
      rw [foldl_append_init _ ("" ++ (sep ++ y))]
      simp [String.append_assoc]

/-! ## Claims -/

/-- C10: the saved path-list file content is exactly the header line
followed by a newline and the first min(8, length) paths of the directory
listing joined by newlines, in listing order; the selected paths are a
prefix of the listing, so paths beyond the first eight never appear. -/
theorem c10_path_list_content (paths : List String) :
    pathListContent paths
        = pathListHeader ++ "\n" ++ String.intercalate "\n" (paths.take 8) ∧
    (paths.take 8).length = min 8 paths.length ∧
    paths.take 8 <+: paths := by
  refine ⟨?_, ?_, ?_⟩
  · unfold pathListContent
    rw [pyJoin_eq_intercalate]
  · exact List.length_take 8 paths
  · exact List.take_prefix 8 paths

/-- C9: every app-resolution flow takes element 0 of the (optionally
exact-name filtered) apps array without verifying it against the search
term, and an empty array produces an IndexError, which is not one of the
taxonomy error kinds. -/
theorem c9_select_first_app :
    (∀ (apps : List AppListing) (a : AppListing),
        selectFirstApp apps = Except.ok a → apps.head? = some a) ∧
    (selectFirstApp ([] : List AppListing)
        = Except.error PyFailure.indexError) ∧
    (∀ (nm : String) (apps : List AppListing),
        apps.filter (fun x => x.name = nm) = [] →
        selectAppByExactName nm apps = Except.error PyFailure.indexError) := by
  refine ⟨?_, rfl, ?_⟩
  · intro apps a h
    cases apps with
    | nil => exact Except.noConfusion h
    | cons x rest =>
      injection h with h2
      rw [h2]
      rfl
  · intro nm apps h
    unfold selectAppByExactName
    rw [h]
    rfl

/-- C9 witness: a two-element search result resolves to its first element
even though only the second carries the exact name, and an exact-name
filter with no match raises the IndexError. -/
theorem c9_select_first_app_witness :
    ([appA, appB] : List AppListing).head? = some appA ∧
    selectAppByExactName "Word Count" [appA, appB]
        = Except.error PyFailure.indexError :=
  ⟨c9_select_first_app.1 [appA, appB] appA rfl,
   c9_select_first_app.2.2 "Word Count" [appA, appB] (by decide)⟩

/-- C3: on the app detail with one group holding the single parameter p1
labelled Input, buildSubmission with value /a/b.txt for Input, no resource
requirements, output directory /out, name job1, notify true and debug
false produces exactly the claimed body, and in particular the body
contains the requirements key mapped to the empty list. -/
theorem c3_literal_scenario (sid aid : String) :
    buildSubmission oneParamApp ⟨sid, aid⟩ [("Input", CfgVal.str "/a/b.txt")]
        [] "/out" "job1" true false
      = Except.ok
          [("config", BodyVal.cfg [("p1", CfgVal.str "/a/b.txt")]),
           ("name", BodyVal.str "job1"),
           ("app_id", BodyVal.str aid),
           ("system_id", BodyVal.str sid),
           ("debug", BodyVal.bool false),
           ("output_dir", BodyVal.str "/out"),
           ("notify", BodyVal.bool true),
           ("requirements", BodyVal.reqs [])] ∧
    ("requirements", BodyVal.reqs ([] : List Requirement)) ∈
        [("config", BodyVal.cfg [("p1", CfgVal.str "/a/b.txt")]),
         ("name", BodyVal.str "job1"),
         ("app_id", BodyVal.str aid),
         ("system_id", BodyVal.str sid),
         ("debug", BodyVal.bool false),
         ("output_dir", BodyVal.str "/out"),
         ("notify", BodyVal.bool true),
         ("requirements", BodyVal.reqs [])] := by
  constructor
  · rfl
  · simp

/-- C4 evidence: the parameter sweep app search cell of part_000 line 503
writes the expression r.raise_for_status without calling it, so a 500
response is swallowed there and execution proceeds, although
raise_for_status would have raised an HTTPError had it been called as at
every other call site. -/
theorem c4_sweep_search_swallows_500 :
    siteOutcome CallSite.autoSweepSearch 500 = Except.ok () ∧
    checksStatus CallSite.autoSweepSearch = false ∧
    raiseForStatus 500 = Except.error ⟨500⟩ ∧
    siteOutcome CallSite.autoBatchSearch 500 = Except.error ⟨500⟩ := by
  refine ⟨rfl, rfl, ?_, ?_⟩
  · rfl
  · rfl

/-- C5: an accepted submission returns an analysis carrying the fresh id,
and listing with the filter field id and that value afterwards returns a
sequence containing an analysis with that id. -/
theorem c5_submit_list_roundtrip (st : ServerState) (newId : String) :
    (serverSubmit st newId).2.id = newId ∧
    ∃ b ∈ serverList (serverSubmit st newId).1 (some ("id", newId)) none,
      b.id = newId := by
  constructor
  · rfl
  · refine ⟨⟨newId, none⟩, ?_, rfl⟩
    simp [serverList, serverSubmit, matchesFilter, List.mem_filter]

/-- C7: a filtered listing request carries exactly the filter parameter
equal to the json serialization of the one-element filter array (plus the
limit parameter when given and nothing else); the client returns the
response sequence as is; and the server listing is an order-preserving
subsequence of the store, with no sorting and no pagination beyond the
limit. -/
theorem c7_list_analyses_request (respond : HttpRequest → ListResponse)
    (f v : String) (n : Nat) (st : ServerState)
    (filt : Option (String × String)) (lim : Option Nat) :
    listAnalyses respond (some (f, v)) lim
        = (respond (listAnalysesRequest (some (f, v)) lim)).analyses ∧
    (listAnalysesRequest (some (f, v)) (some n)).queryParams
        = [("filter", dumpsFilterArray [(f, v)]), ("limit", toString n)] ∧
    (listAnalysesRequest (some (f, v)) none).queryParams
        = [("filter", dumpsFilterArray [(f, v)])] ∧
    List.Sublist (serverList st filt lim) st.analyses := by
  refine ⟨rfl, rfl, rfl, ?_⟩
  unfold serverList
  cases lim with
  | none => exact List.filter_sublist st.analyses
  | some n =>
    exact List.Sublist.trans (List.take_sublist n _)
      (List.filter_sublist st.analyses)

/-- C1 counterexample: over the four sweep values, with the analyses
endpoint rejecting every request, only one submit call is issued before
the raised HTTPError terminates the loop, so the number of calls is not
the number of values. -/
theorem c1_counterexample :
    ¬ ((runSweep
          (submit_parameter_sweep_job failPost "someuser" "app-y" "de"
            atReads1 atReads2)
          sweepRates).length = sweepRates.length) := by
  intro h
  simp [runSweep, submit_parameter_sweep_job, failPost, sweepRates] at h

/-- C1 as amended: the sweep loop calls submit once per value, in input
order, as long as every call succeeds, issuing exactly N calls over N
values; the first raised failure terminates the loop, so the failing value
is the last one submitted and later values are never submitted; and the
values actually submitted always form a prefix of the input sequence. -/
theorem c1_sweep_loop (submit : String → Except HttpError Analysis)
    (values : List String) :
    ((∀ v ∈ values, isOkResult (submit v) = true) →
        runSweep submit values = values.map (fun v => (v, submit v))) ∧
    (∀ v rest e, submit v = Except.error e →
        runSweep submit (v :: rest) = [(v, Except.error e)]) ∧
    (runSweep submit values).map Prod.fst <+: values := by
  refine ⟨?_, ?_, ?_⟩
  · intro h
    induction values with
    | nil => rfl
    | cons v rest ih =>
      cases hsv : submit v with
      | ok a =>
        have htail := ih (fun u hu => h u (List.mem_cons_of_mem v hu))
        simp [runSweep, hsv, htail]
      | error e =>
        have := h v (List.mem_cons_self v rest)
        rw [hsv] at this
        exact absurd this (by simp [isOkResult])
  · intro v rest e h
    simp [runSweep, h]
  · induction values with
    | nil => exact ⟨[], rfl⟩
    | cons v rest ih =>
      cases hsv : submit v with
      | ok a =>
        obtain ⟨t, ht⟩ := ih
        exact ⟨t, by simp [runSweep, hsv, ht]⟩
      | error e =>
        exact ⟨rest, by simp [runSweep, hsv]⟩

/-- C1 witness: on an oracle accepting everything, the loop over the four
sweep rates issues the four calls in order; on an oracle rejecting
everything, the loop over the same values stops after the first call. -/
theorem c1_sweep_loop_witness :
    runSweep sweepAllOk sweepRates
        = sweepRates.map (fun v => (v, sweepAllOk v)) ∧
    runSweep sweepAllFail ("0.01" :: ["0.02", "0.03", "0.04"])
        = [("0.01", Except.error ⟨502⟩)] :=
  ⟨(c1_sweep_loop sweepAllOk sweepRates).1 (by decide),
   (c1_sweep_loop sweepAllFail []).2.1 "0.01" ["0.02", "0.03", "0.04"]
     ⟨502⟩ rfl⟩

/-- C2 counterexample: on the app whose only parameter labelled B sits in
the second group, buildSubmission for label B fails with the unknown
parameter error although exactly one parameter of the app detail carries
that label, so the failure condition is not matching no parameter in any
parameter group. -/
theorem c2_counterexample :
    buildSubmission twoGroupApp ⟨"de", "app-x"⟩ [("B", CfgVal.str "x")] []
        "/out" "j" true false
      = Except.error PyFailure.unknownParameter ∧
    labelMatchCount twoGroupApp "B" = 1 := by
  constructor
  · rfl
  · rfl

/-- C2 as amended: on an app detail with at least one parameter group,
buildSubmission for a single label fails with the unknown parameter error
exactly when the label matches no parameter of the first group, fails with
the ambiguous parameter error exactly when two or more parameters of the
first group share the label, on any failure produces no request body, and
on an app detail with no groups fails with an indexing error. -/
theorem c2_error_classification (g : ParamGroup) (gs : List ParamGroup)
    (appRef : AppRef) (label : String) (v : CfgVal)
    (reqs : List Requirement) (out nm : String) (notify debug : Bool) :
    (buildSubmission ⟨g :: gs⟩ appRef [(label, v)] reqs out nm notify debug
        = Except.error PyFailure.unknownParameter
      ↔ (g.parameters.filter (fun p => p.label = label)).length = 0) ∧
    (buildSubmission ⟨g :: gs⟩ appRef [(label, v)] reqs out nm notify debug
        = Except.error PyFailure.ambiguousParameter
      ↔ 2 ≤ (g.parameters.filter (fun p => p.label = label)).length) ∧
    (∀ e body,
      buildSubmission ⟨g :: gs⟩ appRef [(label, v)] reqs out nm notify debug
          = Except.error e →
      buildSubmission ⟨g :: gs⟩ appRef [(label, v)] reqs out nm notify debug
          ≠ Except.ok body) ∧
    (buildSubmission (⟨[]⟩ : AppDetail) appRef [(label, v)] reqs out nm
        notify debug = Except.error PyFailure.indexError) := by
  have hlen : (g.parameters.filter (fun p => p.label = label)).length
      = (matchingIds g.parameters label).length := by
    simp [matchingIds]
  have hne : ∀ e body,
      buildSubmission ⟨g :: gs⟩ appRef [(label, v)] reqs out nm notify debug
          = Except.error e →
      buildSubmission ⟨g :: gs⟩ appRef [(label, v)] reqs out nm notify debug
          ≠ Except.ok body := by
    intro e body he hok
    rw [he] at hok
    exact Except.noConfusion hok
  refine ⟨?_, ?_, hne, rfl⟩ <;>
  · rw [hlen]
    rcases hm : matchingIds g.parameters label with _ | ⟨x, _ | ⟨y, t⟩⟩ <;>
      simp [buildSubmission, resolveConfig, resolveLabel,
        firstGroupParameters, unpackSingle, hm]

/-- C2 witness: on the one-parameter app, a label matching nothing in the
first group produces the unknown parameter error. -/
theorem c2_error_classification_witness :
    buildSubmission oneParamApp ⟨"de", "app-x"⟩ [("Missing", CfgVal.str "x")]
        [] "/out" "j" true false
      = Except.error PyFailure.unknownParameter :=
  (c2_error_classification ⟨[⟨"p1", "Input"⟩]⟩ [] ⟨"de", "app-x"⟩ "Missing"
    (CfgVal.str "x") [] "/out" "j" true false).1.mpr (by decide)

/-- C6: buildSubmission is deterministic; two calls on identical arguments
that produce a request body produce the same body, hence byte-identical
serialized JSON.  The embedding also records that buildSubmission is a
pure function of its arguments alone, with no response oracle in its type,
unlike the operations that reach the network. -/
theorem c6_deterministic (app : AppDetail) (appRef : AppRef)
    (pv : List (String × CfgVal)) (reqs : List Requirement)
    (out nm : String) (notify debug : Bool) (b1 b2 : RequestBody)
    (h1 : buildSubmission app appRef pv reqs out nm notify debug
        = Except.ok b1)
    (h2 : buildSubmission app appRef pv reqs out nm notify debug
        = Except.ok b2) :
    serializeBody b1 = serializeBody b2 := by
  rw [h1] at h2
  injection h2 with h3
  rw [h3]

/-- C6 witness: the literal scenario body serializes identically across
two evaluations of buildSubmission on the same arguments. -/
theorem c6_deterministic_witness :
    serializeBody exampleBody = serializeBody exampleBody :=
  c6_deterministic oneParamApp ⟨"de", "app-x"⟩
    [("Input", CfgVal.str "/a/b.txt")] [] "/out" "job1" true false
    exampleBody exampleBody rfl rfl

/-- A resolved parameter id is the id of some parameter of the app. -/
theorem resolveLabel_mem_paramIds (app : AppDetail) (label pid : String)
    (h : resolveLabel app label = Except.ok pid) : pid ∈ paramIds app := by
  unfold resolveLabel at h
  cases happ : app.groups with
  | nil =>
    have hfg : firstGroupParameters app = Except.error PyFailure.indexError := by
      simp [firstGroupParameters, happ]
    rw [hfg] at h
    exact Except.noConfusion h
  | cons g gs =>
    have hfg : firstGroupParameters app = Except.ok g.parameters := by
      simp [firstGroupParameters, happ]
    rw [hfg] at h
    have h2 : unpackSingle (matchingIds g.parameters label) = Except.ok pid := h
    have hmem : pid ∈ matchingIds g.parameters label := by
      rcases hm : matchingIds g.parameters label with _ | ⟨x, _ | ⟨y, t⟩⟩ <;>
        rw [hm] at h2 <;> simp [unpackSingle] at h2
      rw [h2]
      exact List.mem_singleton.2 rfl
    simp only [matchingIds, List.mem_map, List.mem_filter] at hmem
    obtain ⟨p, ⟨hpmem, _⟩, hpid⟩ := hmem
    simp only [paramIds, allParameters, List.mem_map, List.mem_flatten]
    exact ⟨p, ⟨g.parameters, ⟨g, by simp [happ], rfl⟩, hpmem⟩, hpid⟩

/-- Every key of a resolved config mapping is a parameter id of the app. -/
theorem resolveConfig_keys_mem (app : AppDetail)
    (pv : List (String × CfgVal)) (cfg : List (String × CfgVal))
    (h : resolveConfig app pv = Except.ok cfg) :
    ∀ k ∈ cfg.map Prod.fst, k ∈ paramIds app := by
  induction pv generalizing cfg with
  | nil =>
    simp only [resolveConfig] at h
    injection h with h2
    rw [← h2]
    simp
  | cons e rest ih =>
    obtain ⟨label, v⟩ := e
    simp only [resolveConfig] at h
    cases hr : resolveLabel app label with
    | error er => rw [hr] at h; exact Except.noConfusion h
    | ok pid =>
      rw [hr] at h
      cases hrc : resolveConfig app rest with
      | error er => rw [hrc] at h; exact Except.noConfusion h
      | ok tail =>
        rw [hrc] at h
        injection h with h2
        rw [← h2]
        intro k hk
        simp only [List.map, List.mem_cons] at hk
        rcases hk with hk | hk
        · exact hk ▸ resolveLabel_mem_paramIds app label pid hr
        · exact ih tail hrc k hk

/-- C8: every request body buildSubmission produces has its config keys
among the parameter ids of the app detail it was built from; the submit
call sends any body exactly as given, performing no local validation; and
the hard-coded sweep body carries the three fixed parameter ids in its
config whatever app the search resolved, so a violating request is sent
rather than rejected locally. -/
theorem c8_config_keys_invariant :
    (∀ (app : AppDetail) (appRef : AppRef) (pv : List (String × CfgVal))
        (reqs : List Requirement) (out nm : String) (notify debug : Bool)
        (body : RequestBody),
      buildSubmission app appRef pv reqs out nm notify debug
          = Except.ok body →
      ∀ k ∈ configKeys body, k ∈ paramIds app) ∧
    (∀ body : RequestBody, (submitPost body).body = body) ∧
    (∀ username aid sid r1 r2 rate,
      configKeys (sweepRequestBody username aid sid r1 r2 rate)
        = [read_1_id, read_2_id, error_rate_id]) := by
  refine ⟨?_, fun _ => rfl, fun _ _ _ _ _ _ => rfl⟩
  intro app appRef pv reqs out nm notify debug body h
  unfold buildSubmission at h
  cases hrc : resolveConfig app pv with
  | error er => rw [hrc] at h; exact Except.noConfusion h
  | ok cfg =>
    rw [hrc] at h
    injection h with h2
    rw [← h2]
    have hkeys : configKeys
        [("config", BodyVal.cfg cfg),
         ("name", BodyVal.str nm),
         ("app_id", BodyVal.str appRef.app_id),
         ("system_id", BodyVal.str appRef.system_id),
         ("debug", BodyVal.bool debug),
         ("output_dir", BodyVal.str out),
         ("notify", BodyVal.bool notify),
         ("requirements", BodyVal.reqs reqs)] = cfg.map Prod.fst := by
      simp [configKeys, List.lookup]
    rw [hkeys]
    exact resolveConfig_keys_mem app pv cfg hrc

/-- C8 witness: the config key of the literal scenario body is a parameter
id of the one-parameter app it was built from. -/
theorem c8_config_keys_invariant_witness :
    ("p1" : String) ∈ paramIds oneParamApp :=
  c8_config_keys_invariant.1 oneParamApp ⟨"de", "app-x"⟩
    [("Input", CfgVal.str "/a/b.txt")] [] "/out" "job1" true false
    exampleBody rfl "p1" (by decide)

end Terrain
